import Mathlib

/-!
Verification of the mcp-intentful-agent repository: a shallow embedding of
the orchestration loop (`agent_service/agent.py`), the rule-based planner
(`agent_service/llm_adapter.py`), the MCP bridge (`agent_service/mcp_client.py`),
the tool server (`mcp_server/server.py`), the backend HTTP client
(`mcp_server/backend_client.py`) and the structured error taxonomy
(`mcp_server/errors.py`), together with theorems settling the specified
behavioural claims.

JSON-shaped Python values are modelled by the inductive `Value`; Python
dictionaries are association lists, machine integers are `Int` (Python ints
are unbounded), and fallible code returns `Except`.  External effects
(the HTTP backend, `uuid.uuid4`, the MCP transport) are inputs to the
embedded functions, so every definition is executable.
-/

namespace McpAgent

/-! ### String helpers (Python `str` operations on `List Char`) -/

/-- Whitespace characters recognised by Python `str.strip` and the regex
class `\s` (space, tab, newline, carriage return, form feed, vertical tab). -/
def isWs (c : Char) : Bool :=
  c = ' ' || c = '\t' || c = '\n' || c = '\r' || c = '\x0c' || c = '\x0b'

/-- ASCII lower-casing, modelling Python `str.lower` on the ASCII inputs the
planner deals with. -/
def low (s : String) : List Char :=
  s.toList.map Char.toLower

/-- Python `needle in hay` (substring containment). -/
def containsSub (hay needle : List Char) : Bool :=
  match hay with
  | [] => needle.isEmpty
  | _ :: rest => needle.isPrefixOf hay || containsSub rest needle

/-- Python `hay.startswith(needle)`. -/
def startsWith (hay needle : List Char) : Bool :=
  needle.isPrefixOf hay

/-- Worker for `removeAll`, structurally recursive on fuel so that it
reduces definitionally; one unit of fuel is spent per character consumed,
so `s.length` fuel always suffices. -/
def removeAllFuel (pat : List Char) : Nat → List Char → List Char
  | 0, s => s
  | _, [] => []
  | fuel + 1, c :: rest =>
    if !pat.isEmpty && pat.isPrefixOf (c :: rest) then
      removeAllFuel pat fuel ((c :: rest).drop pat.length)
    else
      c :: removeAllFuel pat fuel rest

/-- Python `s.replace(pat, "")`: delete every (leftmost, non-overlapping)
occurrence of `pat`. -/
def removeAll (pat : List Char) (s : List Char) : List Char :=
  removeAllFuel pat s.length s

/-- Python `str.strip`. -/
def stripWs (s : List Char) : List Char :=
  ((s.dropWhile isWs).reverse.dropWhile isWs).reverse

/-- Python `", ".join(parts)`. -/
def joinComma (parts : List String) : String :=
  match parts with
  | [] => ""
  | p :: rest => rest.foldl (fun acc q => acc ++ ", " ++ q) p

/-- An apostrophe character, used to spell the English contractions that
appear verbatim in the source strings. -/
def apos : String := String.mk [Char.ofNat 39]

/-! ### JSON-shaped values (`Value`) -/

/-- A JSON-shaped Python value: `None`, `bool`, `int`, `str`, `list`, `dict`.
Floats only occur in backend payload fields no claim inspects, so numbers
are carried as `Int`. -/
inductive Value where
  | null : Value
  | bool : Bool → Value
  | num : Int → Value
  | str : String → Value
  | arr : List Value → Value
  | obj : List (String × Value) → Value

/-- Python truthiness (`bool(v)`). -/
def Value.truthy : Value → Bool
  | .null => false
  | .bool b => b
  | .num n => n ≠ 0
  | .str s => s ≠ ""
  | .arr xs => !xs.isEmpty
  | .obj kvs => !kvs.isEmpty

/-- `isinstance(v, dict)`. -/
def Value.isObj : Value → Bool
  | .obj _ => true
  | _ => false

/-- Python `d.get(k)`: `none` models `None` (key absent or receiver not a
dict; attribute errors on non-dict receivers are outside the embedding). -/
def vget (v : Value) (k : String) : Option Value :=
  match v with
  | .obj kvs => (kvs.find? (fun kv => kv.1 = k)).map (·.2)
  | _ => none

/-- Python `d.get(k, default)`. -/
def vgetD (v : Value) (k : String) (d : Value) : Value :=
  (vget v k).getD d

/-- Truthiness of `d.get(k)` (with `None` falsy). -/
def tget (v : Value) (k : String) : Bool :=
  match vget v k with
  | some w => w.truthy
  | none => false

/-- Python `d.get(k) == s` for a string literal `s`. -/
def sget (v : Value) (k : String) (s : String) : Bool :=
  match vget v k with
  | some (.str t) => t = s
  | _ => false

/-- Python `k in d` (key membership). -/
def hasKey (v : Value) (k : String) : Bool :=
  match v with
  | .obj kvs => kvs.any (fun kv => kv.1 = k)
  | _ => false

/-- Rendering used where source f-strings interpolate a value
(`f"{x}"`); exact float formatting is abstracted, no claim inspects it. -/
def strOf (v : Option Value) : String :=
  match v with
  | some (.str s) => s
  | some (.num n) => toString n
  | some (.bool b) => toString b
  | _ => "None"

/-! ### `mcp_server/errors.py` -/

/-- A Python exception as seen by the tool handlers: either a structured
`ToolError(code, message, details)` or any other exception (pydantic
`ValidationError`, transport errors, ...) carrying its string rendering. -/
inductive PyExc where
  | toolError (code : String) (message : String) (details : Value)
  | other (text : String)

/-- `errors.structured_error`: convert an exception to the structured error
response dict. -/
def structured_error : PyExc → Value
  | .toolError code message details =>
    .obj [("ok", .bool false),
          ("error", .obj [("code", .str code),
                          ("message", .str message),
                          ("details", details)])]
  | .other text =>
    .obj [("ok", .bool false),
          ("error", .obj [("code", .str "UPSTREAM_ERROR"),
                          ("message", .str "Unexpected error"),
                          ("details", .obj [("exception", .str text)])])]

/-- The error code of a structured result, if any (`r.get("error",{}).get("code")`). -/
def errCode (r : Value) : Option String :=
  match vget r "error" with
  | some e =>
    match vget e "code" with
    | some (.str c) => some c
    | _ => none
  | none => none

/-! ### `mcp_server/backend_client.py` -/

/-- The outcome of one HTTP attempt against the backend, as observed by an
operation body of `ExistingBackendClient`: a decoded JSON response with its
status code, a timeout (`httpx.TimeoutException`), or a non-timeout
transport failure (`httpx.TransportError`). -/
inductive AttemptOutcome where
  | response (status : Nat) (body : String) (json : Value)
  | timeout
  | transportError (text : String)

/-- An exception escaping one attempt: a `ToolError` (not retried by
tenacity) or an `httpx.TransportError` (retried). -/
inductive ClientExc where
  | toolErr (code : String) (message : String) (details : Value)
  | transport (text : String)

/-- `ExistingBackendClient._raise_for_status`: map HTTP error statuses to
`ToolError`s (`httpx.Response.is_error` is `400 ≤ status ≤ 599`). -/
def raise_for_status (status : Nat) (body : String) : Except ClientExc Unit :=
  if status = 401 then .error (.toolErr "UNAUTHORIZED" "Unauthorized" (.obj []))
  else if status = 403 then .error (.toolErr "FORBIDDEN" "Forbidden" (.obj []))
  else if status = 404 then .error (.toolErr "NOT_FOUND" "Not found" (.obj []))
  else if 400 ≤ status ∧ status ≤ 599 then
    .error (.toolErr "UPSTREAM_ERROR" "Backend error"
      (.obj [("status", .num status), ("body", .str (String.mk (body.toList.take 500)))]))
  else .ok ()

/-- The body of one backend operation attempt: perform the request, run
`_raise_for_status`, return the JSON; `except httpx.TimeoutException`
converts a timeout to `ToolError("UPSTREAM_TIMEOUT", ...)` INSIDE the
attempt, so tenacity only ever sees non-timeout transport errors. -/
def attemptOnce (o : AttemptOutcome) : Except ClientExc Value :=
  match o with
  | .response status body json =>
    match raise_for_status status body with
    | .ok () => .ok json
    | .error e => .error e
  | .timeout => .error (.toolErr "UPSTREAM_TIMEOUT" "Backend timeout" (.obj []))
  | .transportError t => .error (.transport t)

/-- The tenacity policy shared by all four operations:
`stop_after_attempt(2)`, `retry_if_exception_type((TimeoutException,
TransportError))`, `reraise=True`.  Timeouts leave the body already wrapped
as `ToolError`, hence only `ClientExc.transport` triggers the one retry.
Returns the final outcome and the number of attempts performed. -/
def withRetry (outs : Nat → AttemptOutcome) : Except ClientExc Value × Nat :=
  match attemptOnce (outs 0) with
  | .error (.transport _) => (attemptOnce (outs 1), 2)
  | r => (r, 1)

/-- `ExistingBackendClient.get_latest_order` (`GET /v1/me/orders/latest`):
retry-wrapped attempt body. -/
def client_get_latest_order (outs : Nat → AttemptOutcome) : Except ClientExc Value × Nat :=
  withRetry outs

/-- `ExistingBackendClient.get_order_status` (`GET /v1/orders/{id}/status`). -/
def client_get_order_status (outs : Nat → AttemptOutcome) : Except ClientExc Value × Nat :=
  withRetry outs

/-- `ExistingBackendClient.request_cancellation` (`POST /v1/orders/{id}/cancel`
with the `Idempotency-Key` header). -/
def client_request_cancellation (outs : Nat → AttemptOutcome) : Except ClientExc Value × Nat :=
  withRetry outs

/-- `ExistingBackendClient.create_order` (`POST /v1/orders`). -/
def client_create_order (outs : Nat → AttemptOutcome) : Except ClientExc Value × Nat :=
  withRetry outs

/-! ### `mcp_server/server.py`

Each tool is embedded as a function of its arguments, the granted scope
set, the idempotency cache (an association list standing for the module
dict `_idempotency_cache`) and the backend call, given as an
`Except PyExc Value`-valued input.  Each run records the backend calls it
actually performed, which is how "no backend call is made" is stated. -/

/-- `server.require_scope`. -/
def require_scope (scopes : List String) (required : String) : Except PyExc Unit :=
  if required ∈ scopes then .ok ()
  else .error (.toolError "FORBIDDEN" ("Missing scope: " ++ required) (.obj []))

/-- Pydantic `order_id` constraint (`min_length=6, max_length=64`),
shared by `GetOrderStatusInput` and `RequestCancelInput`. -/
def validOrderId (order_id : String) : Bool :=
  6 ≤ order_id.length && order_id.length ≤ 64

/-- Pydantic `idempotency_key` constraint (`None` or `min_length=8,
max_length=128`) from `RequestCancelInput`. -/
def validIdemKey : Option String → Bool
  | none => true
  | some k => 8 ≤ k.length && k.length ≤ 128

/-- One entry of the `items: list[dict]` argument of `create_order` before
validation: the dict may lack either key. -/
structure ItemIn where
  product_name : Option String
  quantity : Option Int
deriving DecidableEq

/-- A validated `OrderItemInput`. -/
structure ValidItem where
  product_name : String
  quantity : Int
deriving DecidableEq

/-- Pydantic `OrderItemInput`: `product_name` required with length 1..100,
`quantity` defaulting to 1 with `ge=1, le=100`.  A pydantic
`ValidationError` is not a `ToolError`, hence `PyExc.other`. -/
def validateItem (i : ItemIn) : Except PyExc ValidItem :=
  match i.product_name with
  | none => .error (.other "ValidationError")
  | some name =>
    if 1 ≤ name.length ∧ name.length ≤ 100 then
      let q := i.quantity.getD 1
      if 1 ≤ q ∧ q ≤ 100 then .ok ⟨name, q⟩
      else .error (.other "ValidationError")
    else .error (.other "ValidationError")

/-- The list comprehension `[OrderItemInput(**item) for item in items]`:
the first invalid item raises. -/
def validateItems : List ItemIn → Except PyExc (List ValidItem)
  | [] => .ok []
  | i :: rest =>
    match validateItem i with
    | .error e => .error e
    | .ok v =>
      match validateItems rest with
      | .error e => .error e
      | .ok vs => .ok (v :: vs)

/-- The `details.items` payload: `[{"product_name": .., "quantity": ..} for i in items]`. -/
def encodeItems (items : List ValidItem) : Value :=
  .arr (items.map fun i =>
    .obj [("product_name", .str i.product_name), ("quantity", .num i.quantity)])

/-- `", ".join(f"{item.quantity}x {item.product_name}" for item in inp.items)`. -/
def itemsSummary (items : List ValidItem) : String :=
  joinComma (items.map fun i => toString i.quantity ++ "x " ++ i.product_name)

/-- Outcome of one `get_latest_order` tool run: the JSON result and the
number of backend calls performed. -/
structure LatestRun where
  result : Value
  calls : Nat

/-- Outcome of one `get_order_status` tool run; `calls` lists the order ids
requested from the backend. -/
structure StatusRun where
  result : Value
  calls : List String

/-- Outcome of one `request_order_cancellation` tool run: result, the
idempotency cache afterwards, and the `(order_id, key)` backend calls. -/
structure CancelRun where
  result : Value
  cache : List (String × Value)
  calls : List (String × String)

/-- Outcome of one `create_order` tool run; `calls` lists the item payloads
posted to the backend. -/
structure CreateRun where
  result : Value
  calls : List (List ValidItem)

/-- Tool `get_latest_order`. -/
def tool_get_latest_order (scopes : List String) (backend : Except PyExc Value) :
    LatestRun :=
  match require_scope scopes "order:read" with
  | .error e => ⟨structured_error e, 0⟩
  | .ok () =>
    match backend with
    | .ok order => ⟨.obj [("ok", .bool true), ("order", order)], 1⟩
    | .error e => ⟨structured_error e, 1⟩

/-- Tool `get_order_status`: scope check, then `GetOrderStatusInput`
validation, then the backend call. -/
def tool_get_order_status (scopes : List String) (order_id : String)
    (backend : String → Except PyExc Value) : StatusRun :=
  match require_scope scopes "order:read" with
  | .error e => ⟨structured_error e, []⟩
  | .ok () =>
    if validOrderId order_id then
      match backend order_id with
      | .ok status => ⟨.obj [("ok", .bool true), ("status", status)], [order_id]⟩
      | .error e => ⟨structured_error e, [order_id]⟩
    else ⟨structured_error (.other "ValidationError"), []⟩

/-- Tool `request_order_cancellation`: scope check, `RequestCancelInput`
validation, the confirmation gate, the idempotency-cache lookup, and only
then the backend call; the cache is written only after a successful backend
result.  `genKey` stands for `str(uuid.uuid4())`, used when the caller
supplies no key. -/
def tool_request_order_cancellation (scopes : List String) (order_id : String)
    (confirmed : Bool) (idempotency_key : Option String) (genKey : String)
    (cache : List (String × Value))
    (backend : String → String → Except PyExc Value) : CancelRun :=
  match require_scope scopes "order:cancel" with
  | .error e => ⟨structured_error e, cache, []⟩
  | .ok () =>
    if validOrderId order_id && validIdemKey idempotency_key then
      if confirmed = false then
        ⟨structured_error (.toolError "CONFIRMATION_REQUIRED"
            "Cancellation requires explicit confirmation."
            (.obj [("order_id", .str order_id),
                   ("required", .obj [("confirmed", .bool true)])])),
         cache, []⟩
      else
        let key := idempotency_key.getD genKey
        let cache_key := "cancel:" ++ order_id ++ ":" ++ key
        match cache.find? (fun kv => kv.1 = cache_key) with
        | some kv =>
          ⟨.obj [("ok", .bool true), ("result", kv.2), ("idempotency_key", .str key)],
           cache, []⟩
        | none =>
          match backend order_id key with
          | .ok result =>
            ⟨.obj [("ok", .bool true), ("result", result), ("idempotency_key", .str key)],
             (cache_key, result) :: cache, [(order_id, key)]⟩
          | .error e => ⟨structured_error e, cache, [(order_id, key)]⟩
    else ⟨structured_error (.other "ValidationError"), cache, []⟩

/-- Tool `create_order`: scope check, per-item and `CreateOrderInput`
validation (1..10 items), the confirmation gate (whose error details embed
the full validated items list), then the backend call. -/
def tool_create_order (scopes : List String) (items : List ItemIn)
    (confirmed : Bool) (backend : List ValidItem → Except PyExc Value) : CreateRun :=
  match require_scope scopes "order:write" with
  | .error e => ⟨structured_error e, []⟩
  | .ok () =>
    match validateItems items with
    | .error e => ⟨structured_error e, []⟩
    | .ok vitems =>
      if 1 ≤ vitems.length ∧ vitems.length ≤ 10 then
        if confirmed = false then
          ⟨structured_error (.toolError "CONFIRMATION_REQUIRED"
              ("Please confirm you want to place an order for: " ++ itemsSummary vitems)
              (.obj [("items", encodeItems vitems),
                     ("required", .obj [("confirmed", .bool true)])])), []⟩
        else
          match backend vitems with
          | .ok result => ⟨.obj [("ok", .bool true), ("order", result)], [vitems]⟩
          | .error e => ⟨structured_error e, [vitems]⟩
      else ⟨structured_error (.other "ValidationError"), []⟩

/-! ### `agent_service/llm_adapter.py`: the Action schema and the planner -/

/-- The three-variant Action union (`ToolAction`, `AskUserAction`,
`FinalAction`). -/
inductive Action where
  | tool (tool : String) (args : Value) (why : Option String)
  | askUser (question : String)
  | final (message : String)

/-- `RuleBasedPlanner.AVAILABLE_PRODUCTS`. -/
def AVAILABLE_PRODUCTS : List String :=
  ["widget", "gadget", "gizmo", "doohickey", "thingamajig"]

/-- `", ".join(AVAILABLE_PRODUCTS)`. -/
def productsJoined : String := joinComma AVAILABLE_PRODUCTS

/-- Python `needle in hay` on the lowered character list. -/
def inL (needle : String) (hay : List Char) : Bool :=
  containsSub hay needle.toList

/-- `RuleBasedPlanner._detect_intent`: keyword classification, checks in
source order, first match wins. -/
def detect_intent (text : String) : String :=
  let lower := stripWs (low text)
  if ["hello", "hi", "hey", "good morning", "good afternoon"].any
      (fun w => inL w lower) then "greeting"
  else if ["help", "what can you do", "what do you do", "capabilities"].any
      (fun w => inL w lower) then "help"
  else if inL "cancel" lower && !(inL "order" (removeAll "cancel".toList lower)) then
    "cancel"
  else if startsWith lower "cancel".toList then "cancel"
  else if ["add order", "place order", "create order", "new order", "buy",
           "order a", "want to order", "i want", "get me"].any
      (fun w => inL w lower) then "add_order"
  else
    let product_mentioned := AVAILABLE_PRODUCTS.any
      (fun p => inL p lower || inL (p ++ "s") lower)
    if product_mentioned &&
        ["order", "buy", "want", "get", "add"].any (fun w => inL w lower) then
      "add_order"
    else if startsWith lower "order ".toList && product_mentioned then "add_order"
    else if inL "cancel" lower then "cancel"
    else if ["status", "where is", "track", "tracking", "when will"].any
        (fun w => inL w lower) then "status"
    else if ["show", "latest order", "my order", "order details", "what order"].any
        (fun w => inL w lower) then "show_order"
    else if ["yes", "yes, cancel it", "yes cancel it", "confirm", "confirm cancel",
             "ok", "sure", "do it", "yes please", "proceed"].any
        (fun w => lower == w.toList) then "confirm"
    else if (["no", "no thanks", "never mind", "cancel that",
              "don" ++ apos ++ "t", "stop"] : List String).any
        (fun w => lower == w.toList) then "decline"
    else "unknown"

/-! Item extraction (`RuleBasedPlanner._extract_order_items`).  The two
`re.search` patterns are embedded as explicit scanners with the same
leftmost-match semantics: products are letter strings and digits are not
whitespace, so the regex engine's backtracking never changes the matched
quantity group.  -/

def isDigit (c : Char) : Bool := '0' ≤ c && c ≤ '9'

/-- Numeric value of a digit run (Python `int(match.group(1))`). -/
def digitsToNat (ds : List Char) : Nat :=
  ds.foldl (fun acc c => acc * 10 + (c.toNat - '0'.toNat)) 0

/-- Match `\s*x?\s*` and then the literal `p` as a prefix of `xs`
(the trailing `s?` of the pattern constrains nothing after `p`). -/
def matchSepThen (p : List Char) (xs : List Char) : Bool :=
  let t1 := xs.dropWhile isWs
  p.isPrefixOf t1 ||
    (match t1 with
     | 'x' :: r => p.isPrefixOf (r.dropWhile isWs)
     | _ => false)

/-- `re.search(rf"(\d+)\s*x?\s*{product}s?", lower)`: the quantity group of
the leftmost match. -/
def searchNumThenProduct (p : List Char) : List Char → Option Nat
  | [] => none
  | c :: rest =>
    if isDigit c then
      if matchSepThen p ((c :: rest).dropWhile isDigit) then
        some (digitsToNat ((c :: rest).takeWhile isDigit))
      else searchNumThenProduct p rest
    else searchNumThenProduct p rest

/-- The maximal digit run at the head of `xs`, if any. -/
def digitsAt (xs : List Char) : Option Nat :=
  match xs with
  | c :: _ => if isDigit c then some (digitsToNat (xs.takeWhile isDigit)) else none
  | [] => none

/-- Match `\s*x?\s*(\d+)`: the quantity group. -/
def matchSepDigits (xs : List Char) : Option Nat :=
  let t1 := xs.dropWhile isWs
  match t1 with
  | 'x' :: r => digitsAt (r.dropWhile isWs)
  | _ => digitsAt t1

/-- `re.search(rf"{product}s?\s*x?\s*(\d+)", lower)`: the quantity group of
the leftmost match (`s?` is greedy; when it fails nothing after an `s` can
match, so consuming the `s` when present is exact). -/
def searchProductThenNum (p : List Char) : List Char → Option Nat
  | [] => none
  | c :: rest =>
    (if p.isPrefixOf (c :: rest) then
      match (c :: rest).drop p.length with
      | 's' :: r => matchSepDigits r
      | after => matchSepDigits after
    else none).orElse (fun _ => searchProductThenNum p rest)

/-- The quantity for one mentioned product: first pattern, then the
second, defaulting to 1. -/
def qtyFor (lower : List Char) (p : String) : Nat :=
  match searchNumThenProduct p.toList lower with
  | some n => n
  | none =>
    match searchProductThenNum p.toList lower with
    | some n => n
    | none => 1

/-- `RuleBasedPlanner._extract_order_items`: for each catalog product
contained in the lowered text, in catalog order, emit
`{"product_name": product, "quantity": min(quantity, 100)}`. -/
def extract_order_items (text : String) : List (String × Int) :=
  let lower := low text
  (AVAILABLE_PRODUCTS.filter (fun p => inL p lower)).map
    (fun p => (p, (Int.ofNat (min (qtyFor lower p) 100))))

/-- The planner's item dicts, as placed in `ToolAction.args["items"]`. -/
def encodePlannerItems (items : List (String × Int)) : Value :=
  .arr (items.map fun i =>
    .obj [("product_name", .str i.1), ("quantity", .num i.2)])

/-- `", ".join(f"{i['quantity']}x {i['product_name']}" for i in items)` over
extracted pairs. -/
def pairsSummary (items : List (String × Int)) : String :=
  joinComma (items.map fun i => toString i.2 ++ "x " ++ i.1)

/-- The same summary over an already-encoded items `Value` (as read back out
of `CONFIRMATION_REQUIRED` details). -/
def viSummary (v : Value) : String :=
  match v with
  | .arr xs => joinComma (xs.map fun i =>
      strOf (vget i "quantity") ++ "x " ++ strOf (vget i "product_name"))
  | _ => ""

/-- `", ".join(f"{i['name']} x{i['qty']}" for i in items)` over a backend
order's items value. -/
def itemsNameQty (v : Value) : String :=
  match v with
  | .arr xs => joinComma (xs.map fun i =>
      strOf (vget i "name") ++ " x" ++ strOf (vget i "qty"))
  | _ => ""

/-- `f"{order.get('total', 0):.2f}"`; decimal float formatting is
abstracted to plain rendering (no claim inspects it). -/
def fmtMoney (v : Value) : String := strOf (some v)

/-- Python `a or b` over two `get` results, with `None` for a missing final
operand. -/
def pyOr (a b : Option Value) : Value :=
  match a with
  | some v => if v.truthy then v else b.getD .null
  | none => b.getD .null

/-- The `Order placed successfully!` `Final` message. -/
def orderPlacedMsg (order : Value) : String :=
  "Order placed successfully!\n\n- Order ID: " ++ strOf (vget order "orderId") ++
  "\n- Items: " ++ itemsNameQty (vgetD order "items" (.arr [])) ++
  "\n- Total: $" ++ fmtMoney (vgetD order "total" (.num 0)) ++
  "\n- Status: " ++ strOf (vget order "status")

def greetingMsg : String :=
  "Hello! I" ++ apos ++ "m your order assistant. I can help you:\n" ++
  "- Check your order status\n- Show your latest order details\n" ++
  "- Cancel delayed orders\n- Place a new order\n\nWhat would you like to do?"

def helpMsg : String :=
  "I can help you with:\n\n**Check order status** - Ask \"What" ++ apos ++
  "s my order status?\"\n**View order details** - Ask \"Show my latest order\"\n" ++
  "**Cancel orders** - Ask \"Cancel my order\" (only delayed orders can be cancelled)\n" ++
  "**Place an order** - Ask \"Order 2 widgets\" (available: " ++ productsJoined ++
  ")\n\nJust type your question!"

def addOrderAsk : String :=
  "What would you like to order? Available products: " ++ productsJoined ++
  ". You can say something like " ++ apos ++ "Order 2 widgets and 1 gadget" ++
  apos ++ "."

def defaultFallbackMsg : String :=
  "I" ++ apos ++ "m not sure what you" ++ apos ++ "d like to do. I can help you:\n" ++
  "- Check your order status\n- Show your order details\n- Cancel a delayed order\n" ++
  "- Place a new order (available: " ++ productsJoined ++ ")\n\nWhat would you like?"

/-- The success-summary block at the top of `next_action`: when there is no
new actionable user intent and the latest result is a successful write
outcome, finish with a `Final` summary. -/
def successBlock (user_text : String) (intent : String) (last_result : Value) :
    Option Action :=
  if user_text.isEmpty || ["greeting", "help", "unknown"].contains intent then
    if last_result.isObj && tget last_result "ok" then
      if tget last_result "order" &&
          sget (vgetD last_result "order" .null) "status" "PROCESSING" then
        some (.final (orderPlacedMsg (vgetD last_result "order" .null)))
      else if tget last_result "result" then
        if (vgetD last_result "result" .null).isObj then
          if sget (vgetD last_result "result" .null) "status" "CANCELLED" then
            some (.final "Your order has been cancelled successfully.")
          else if sget (vgetD last_result "result" .null) "status" "ALREADY_CANCELLED" then
            some (.final "This order was already cancelled.")
          else none
        else none
      else none
    else none
  else none

/-- Python `tool_results[-2:]`. -/
def lastTwo (l : List Value) : List Value := l.drop (l.length - 2)

/-- The `for r in tool_results[-2:]` scan for a pending
`CONFIRMATION_REQUIRED` error: re-ask for confirmation, distinguishing an
order-creation confirmation (details has an `items` key) from the generic
one. -/
def confirmScan : List Value → Option Action
  | [] => none
  | r :: rest =>
    if r.isObj && tget r "error" &&
        sget (vgetD r "error" .null) "code" "CONFIRMATION_REQUIRED" then
      let details := vgetD (vgetD r "error" .null) "details" (.obj [])
      if hasKey details "items" then
        some (.askUser ("Ready to place order for: " ++
          viSummary (vgetD details "items" (.arr [])) ++ ". Reply " ++ apos ++
          "Yes" ++ apos ++ " to confirm or " ++ apos ++ "No" ++ apos ++ " to cancel."))
      else
        some (.askUser
          "I need your confirmation to proceed. Reply \"Yes\" to confirm or \"No\" to cancel.")
    else confirmScan rest

/-- The confirmation-handling block: skipped entirely when the user is
answering (`confirm`/`decline` with a non-empty history). -/
def confirmBlock (intent : String) (tool_results : List Value) : Option Action :=
  if (intent = "confirm" || intent = "decline") && !tool_results.isEmpty then none
  else confirmScan (lastTwo tool_results)

/-- The `confirm` intent: `for r in reversed(tool_results)` looking for the
most recent `CONFIRMATION_REQUIRED` error whose details contain `items`
(the list is given already reversed). -/
def findConfItems : List Value → Option Value
  | [] => none
  | r :: rest =>
    if r.isObj && tget r "error" &&
        sget (vgetD r "error" .null) "code" "CONFIRMATION_REQUIRED" &&
        hasKey (vgetD (vgetD r "error" .null) "details" (.obj [])) "items" then
      some (vgetD (vgetD (vgetD r "error" .null) "details" (.obj [])) "items" (.arr []))
    else findConfItems rest

/-- The `confirm` intent's cancellation flow: resolve an order id from the
most recent order- or status-bearing result (the list is given already
reversed); `.null` when the loop never breaks. -/
def findOrderId : List Value → Value
  | [] => .null
  | r :: rest =>
    if r.isObj && tget r "order" then
      pyOr (vget (vgetD r "order" .null) "orderId")
           (vget (vgetD r "order" .null) "order_id")
    else if r.isObj && tget r "status" then
      (vget (vgetD r "status" .null) "orderId").getD .null
    else findOrderId rest

/-- The `confirm` intent dispatch. -/
def confirmIntent (tool_results : List Value) : Action :=
  match findConfItems tool_results.reverse with
  | some items =>
    .tool "create_order" (.obj [("items", items), ("confirmed", .bool true)])
      (some "User confirmed order placement.")
  | none =>
    let order_id := findOrderId tool_results.reverse
    if order_id.truthy then
      .tool "request_order_cancellation"
        (.obj [("order_id", order_id), ("confirmed", .bool true)])
        (some "User confirmed cancellation.")
    else
      .tool "get_latest_order" (.obj [])
        (some "Need to find the order before cancelling.")

/-- The `show_order` intent dispatch. -/
def showOrderIntent (last_result : Value) : Action :=
  if last_result.isObj && tget last_result "order" then
    let order := vgetD last_result "order" .null
    let items := vgetD order "items" (.arr [])
    let items_str := if items.truthy then itemsNameQty items else "N/A"
    .final ("**Your Latest Order**\n\n- Order ID: " ++ strOf (vget order "orderId") ++
      "\n- Status: " ++ strOf (vget order "status") ++
      "\n- Items: " ++ items_str ++
      "\n- Total: $" ++ fmtMoney (vgetD order "total" (.num 0)))
  else
    .tool "get_latest_order" (.obj []) (some "User wants to see their order.")

/-- The `status` intent dispatch. -/
def statusIntent (last_result : Value) : Action :=
  if last_result.isObj && tget last_result "status" then
    let status_info := vgetD last_result "status" .null
    let msg := "**Order Status**\n\nOrder " ++
      strOf (some (vgetD status_info "orderId" (.str "N/A"))) ++
      " is currently: " ++ strOf (some (vgetD status_info "status" (.str "Unknown")))
    if sget status_info "status" "DELAYED" then
      .final (msg ++ "\n\nWould you like me to cancel this order? Reply \"Yes\" to cancel.")
    else .final msg
  else if last_result.isObj && tget last_result "order" then
    .tool "get_order_status"
      (.obj [("order_id", pyOr (vget (vgetD last_result "order" .null) "orderId")
                               (vget (vgetD last_result "order" .null) "order_id"))])
      (some "Getting order status.")
  else
    .tool "get_latest_order" (.obj []) (some "Need to get order before checking status.")

/-- The `cancel` intent dispatch. -/
def cancelIntent (last_result : Value) : Action :=
  if last_result.isObj && tget last_result "status" then
    if sget (vgetD last_result "status" .null) "status" "DELAYED" then
      .askUser "Your order is delayed. Would you like me to cancel it? Reply \"Yes\" to confirm."
    else if sget (vgetD last_result "status" .null) "status" "CANCELLED" then
      .final "This order has already been cancelled."
    else
      .final ("Your order status is " ++
        strOf (vget (vgetD last_result "status" .null) "status") ++
        ". Only delayed orders can be cancelled. Would you like me to check if there" ++
        apos ++ "s an issue with your order?")
  else if last_result.isObj && tget last_result "order" then
    let order := vgetD last_result "order" .null
    if tget order "cancelled" then .final "This order has already been cancelled."
    else
      .tool "get_order_status"
        (.obj [("order_id", pyOr (vget order "orderId") (vget order "order_id"))])
        (some "Checking order status before cancellation.")
  else
    .tool "get_latest_order" (.obj []) (some "Need to find order to cancel.")

/-- The `=== Handle different intents ===` section: each branch
unconditionally returns when its intent matches. -/
def dispatchIntent (intent : String) (user_text : String)
    (tool_results : List Value) (last_result : Value) : Option Action :=
  if intent = "greeting" then some (.final greetingMsg)
  else if intent = "help" then some (.final helpMsg)
  else if intent = "decline" then
    some (.final "No problem! Let me know if you need anything else.")
  else if intent = "add_order" then
    let items := extract_order_items user_text
    if items.isEmpty then some (.askUser addOrderAsk)
    else
      some (.tool "create_order"
        (.obj [("items", encodePlannerItems items), ("confirmed", .bool false)])
        (some ("Creating order for: " ++ pairsSummary items)))
  else if intent = "confirm" then some (confirmIntent tool_results)
  else if intent = "show_order" then some (showOrderIntent last_result)
  else if intent = "status" then some (statusIntent last_result)
  else if intent = "cancel" then some (cancelIntent last_result)
  else none

/-- The `=== Handle tool results (for ongoing flows) ===` tail: sequential
checks on the latest result; the sub-blocks whose inner conditions fail
fall through to the next check, which this definition flattens into one
if-chain with the same first-hit semantics. -/
def tailBlock (tool_results : List Value) (last_result : Value) : Option Action :=
  if last_result.isObj && tget last_result "order" then
    some (.tool "get_order_status"
      (.obj [("order_id", pyOr (vget (vgetD last_result "order" .null) "orderId")
                               (vget (vgetD last_result "order" .null) "order_id"))])
      (some "Checking order status."))
  else if last_result.isObj && tget last_result "status" then
    (if sget (vgetD last_result "status" .null) "status" "DELAYED" then
      some (.askUser ("Your latest order is DELAYED. Would you like me to cancel it? " ++
        "Reply \"Yes\" to cancel or \"No\" to keep it."))
    else
      some (.final ("Your order status is: " ++
        strOf (vget (vgetD last_result "status" .null) "status") ++
        ". Let me know if you need anything else!")))
  else if last_result.isObj && tget last_result "result" &&
      (vgetD last_result "result" .null).isObj &&
      sget (vgetD last_result "result" .null) "status" "CANCELLED" then
    some (.final "Your order has been cancelled successfully.")
  else if last_result.isObj && tget last_result "result" &&
      (vgetD last_result "result" .null).isObj &&
      sget (vgetD last_result "result" .null) "status" "ALREADY_CANCELLED" then
    some (.final "This order was already cancelled.")
  else if last_result.isObj && tget last_result "ok" && tget last_result "order" &&
      sget (vgetD last_result "order" .null) "status" "PROCESSING" then
    some (.final (orderPlacedMsg (vgetD last_result "order" .null)))
  else if tool_results.isEmpty then
    some (.tool "get_latest_order" (.obj [])
      (some "Starting fresh - getting latest order."))
  else none

/-- `tool_results[-1] if tool_results else {}`. -/
def lastResult (tool_results : List Value) : Value :=
  (tool_results.getLast?).getD (.obj [])

/-- `RuleBasedPlanner.next_action`: the blocks above in source order, with
the fixed capability-listing `Final` as the default fallback. -/
def next_action (user_text : String) (tool_results : List Value) : Action :=
  (((successBlock user_text (detect_intent user_text) (lastResult tool_results)).orElse
    fun _ => (confirmBlock (detect_intent user_text) tool_results).orElse
    fun _ => (dispatchIntent (detect_intent user_text) user_text tool_results
               (lastResult tool_results)).orElse
    fun _ => tailBlock tool_results (lastResult tool_results)).getD
   (.final defaultFallbackMsg))

/-! ### `agent_service/mcp_client.py`: the tool-execution bridge -/

/-- One MCP content block as `call_tool` sees it: either a block with a
`text` attribute (carrying the outcome of `json.loads(text)`: `none` models
a `json.JSONDecodeError`) or a block without one. -/
inductive ContentBlock where
  | textBlock (text : String) (parsed : Option Value)
  | noText

/-- The body of `McpConnection.call_tool` on a received tool response:
parse the first text block, degrade decode failures to `{ok:true, raw}`
and missing/empty content to `{ok:true, result:"completed"}`. -/
def processContent (blocks : List ContentBlock) : Value :=
  match blocks with
  | .textBlock text parsed :: _ =>
    if text ≠ "" then
      match parsed with
      | some v => v
      | none => .obj [("ok", .bool true), ("raw", .str text)]
    else .obj [("ok", .bool true), ("result", .str "completed")]
  | .noText :: _ => .obj [("ok", .bool true), ("result", .str "completed")]
  | [] => .obj [("ok", .bool true), ("result", .str "completed")]

/-- `McpConnection.call_tool`: `session.call_tool` is awaited with no
enclosing try/except, so a transport-level exception propagates to the
caller; a received response is processed totally. -/
def call_tool (session : Except String (List ContentBlock)) : Except String Value :=
  match session with
  | .error e => .error e
  | .ok blocks => .ok (processContent blocks)

/-! ### `agent_service/agent.py`: the orchestration loop -/

/-- `agent.MAX_STEPS`. -/
def MAX_STEPS : Nat := 6

/-- The fixed step-limit fallback reply. -/
def stepLimitMsg : String :=
  "I couldn" ++ apos ++
  "t complete that safely within the step limit. Please try again with more details."

/-- The fixed fallback when the planner answers a `CONFIRMATION_REQUIRED`
result with anything but an `AskUser`. -/
def confirmFallbackMsg : String :=
  "I need your confirmation to proceed. Reply \"Yes\" to confirm."

/-- Outcome of one turn: the reply, the updated tool-result history, the
number of `planner.next_action` invocations performed, and whether the
turn ended by exhausting the step budget. -/
structure LoopResult where
  message : String
  results : List Value
  plannerCalls : Nat
  exhausted : Bool

/-- `result if isinstance(result, dict) else {"ok": True, "result": result}` —
the normalization applied before appending to the history. -/
def normalizeResult (result : Value) : Value :=
  if result.isObj then result else .obj [("ok", .bool true), ("result", result)]

/-- The `for step in range(MAX_STEPS)` loop of `run_agent`, with the
remaining budget as fuel.  `oracle` stands for `conn.call_tool`, mapping
the accumulated history, tool name and arguments to the bridge's returned
value. -/
def runLoop (oracle : List Value → String → Value → Value) :
    Nat → String → List Value → LoopResult
  | 0, _, results => ⟨stepLimitMsg, results, 0, true⟩
  | fuel + 1, text, results =>
    match next_action text results with
    | .final m => ⟨m, results, 1, false⟩
    | .askUser q => ⟨q, results, 1, false⟩
    | .tool name args _ =>
      if errCode (oracle results name args) = some "CONFIRMATION_REQUIRED" then
        match next_action "" (results ++ [normalizeResult (oracle results name args)]) with
        | .askUser q =>
          ⟨q, results ++ [normalizeResult (oracle results name args)], 2, false⟩
        | _ =>
          ⟨confirmFallbackMsg,
           results ++ [normalizeResult (oracle results name args)], 2, false⟩
      else
        ⟨(runLoop oracle fuel "" (results ++ [normalizeResult (oracle results name args)])).message,
         (runLoop oracle fuel "" (results ++ [normalizeResult (oracle results name args)])).results,
         (runLoop oracle fuel "" (results ++ [normalizeResult (oracle results name args)])).plannerCalls + 1,
         (runLoop oracle fuel "" (results ++ [normalizeResult (oracle results name args)])).exhausted⟩

/-- `agent.run_agent`: run the loop on the utterance and carried-in history
with the fixed budget. -/
def run_agent (user_message : String) (tool_results : List Value)
    (oracle : List Value → String → Value → Value) : LoopResult :=
  runLoop oracle MAX_STEPS user_message tool_results

end McpAgent

namespace McpAgent

/-! ### Concrete collaborators used by witnesses and counterexamples -/

/-- A backend cancellation call that always succeeds with a cancelled
order. -/
def bkCancelOk : String → String → Except PyExc Value :=
  fun orderId _ => .ok (.obj [("orderId", .str orderId), ("status", .str "CANCELLED")])

/-- A backend cancellation call that always times out. -/
def bkCancelTimeout : String → String → Except PyExc Value :=
  fun _ _ => .error (.toolError "UPSTREAM_TIMEOUT" "Backend timeout" (.obj []))

/-- A backend status call that always succeeds. -/
def bkStatusOk : String → Except PyExc Value :=
  fun orderId => .ok (.obj [("orderId", .str orderId), ("status", .str "SHIPPED")])

/-- A backend order-creation call that always succeeds. -/
def bkCreateOk : List ValidItem → Except PyExc Value :=
  fun _ => .ok (.obj [("orderId", .str "ORD-00001"), ("status", .str "PROCESSING")])

end McpAgent
namespace McpAgent

/-- Helper: `emptyDetails`-shaped CONFIRMATION_REQUIRED result for a
cancellation of `oid`. -/
def cancelConfResult (oid : String) : Value :=
  structured_error (.toolError "CONFIRMATION_REQUIRED"
    "Cancellation requires explicit confirmation."
    (.obj [("order_id", .str oid), ("required", .obj [("confirmed", .bool true)])]))

/-- Helper: the CONFIRMATION_REQUIRED result of an unconfirmed
`create_order` over validated items `vi`. -/
def createConfResult (vi : List ValidItem) : Value :=
  structured_error (.toolError "CONFIRMATION_REQUIRED"
    ("Please confirm you want to place an order for: " ++ itemsSummary vi)
    (.obj [("items", encodeItems vi), ("required", .obj [("confirmed", .bool true)])]))

/-- C1 counterexample: `request_order_cancellation("abc", confirmed=False)`
(order id shorter than 6) makes no backend call but reports
`UPSTREAM_ERROR` — not `CONFIRMATION_REQUIRED` as the claim requires of
every `confirmed=false` invocation. -/
theorem c1_unconfirmed_invalid_not_confirmation_required :
    (tool_request_order_cancellation ["order:cancel"] "abc" false none
      "generated-key-0000" [] bkCancelOk).calls = [] ∧
    errCode (tool_request_order_cancellation ["order:cancel"] "abc" false none
      "generated-key-0000" [] bkCancelOk).result = some "UPSTREAM_ERROR" ∧
    errCode (tool_request_order_cancellation ["order:cancel"] "abc" false none
      "generated-key-0000" [] bkCancelOk).result ≠ some "CONFIRMATION_REQUIRED" := by
  refine ⟨rfl, rfl, ?_⟩
  decide

/-- C1 (amended): an unconfirmed mutating tool call never reaches the
backend, and whenever the scope check and input validation pass it returns
the `CONFIRMATION_REQUIRED` error whose details suffice to resubmit
(the `order_id` for cancellation, the full validated items list for
creation). -/
theorem c1_confirmation_gate :
    (∀ scopes oid ik gk cache bk,
      (tool_request_order_cancellation scopes oid false ik gk cache bk).calls = []) ∧
    (∀ scopes items bk, (tool_create_order scopes items false bk).calls = []) ∧
    (∀ scopes oid ik gk cache bk, "order:cancel" ∈ scopes →
      validOrderId oid = true → validIdemKey ik = true →
      (tool_request_order_cancellation scopes oid false ik gk cache bk).result =
        cancelConfResult oid) ∧
    (∀ scopes items vi bk, "order:write" ∈ scopes →
      validateItems items = .ok vi → 1 ≤ vi.length → vi.length ≤ 10 →
      (tool_create_order scopes items false bk).result = createConfResult vi) := by
  refine ⟨?_, ?_, ?_, ?_⟩
  · intro scopes oid ik gk cache bk
    unfold tool_request_order_cancellation
    split
    · rfl
    · cases hv : validOrderId oid && validIdemKey ik <;> simp [hv]
  · intro scopes items bk
    unfold tool_create_order
    split
    · rfl
    · split
      · rfl
      · split
        · simp
        · rfl
  · intro scopes oid ik gk cache bk hs hoid hik
    unfold tool_request_order_cancellation
    simp [require_scope, hs, hoid, hik, cancelConfResult]
  · intro scopes items vi bk hs hv h1 h10
    unfold tool_create_order
    simp [require_scope, hs, hv, h1, h10, createConfResult]

/-- C1 witness: the amended theorem applied to a concrete valid
cancellation and a concrete valid order creation. -/
theorem c1_confirmation_gate_witness :
    (tool_request_order_cancellation ["order:cancel"] "ORD-12345" false none
      "generated-key-0000" [] bkCancelOk).calls = [] ∧
    (tool_request_order_cancellation ["order:cancel"] "ORD-12345" false none
      "generated-key-0000" [] bkCancelOk).result = cancelConfResult "ORD-12345" ∧
    (tool_create_order ["order:write"] [⟨some "widget", some 2⟩] false bkCreateOk).result =
      createConfResult [⟨"widget", 2⟩] := by
  refine ⟨c1_confirmation_gate.1 ["order:cancel"] "ORD-12345" none
      "generated-key-0000" [] bkCancelOk, ?_, ?_⟩
  · exact c1_confirmation_gate.2.2.1 ["order:cancel"] "ORD-12345" none
      "generated-key-0000" [] bkCancelOk (by decide) (by decide) (by decide)
  · exact c1_confirmation_gate.2.2.2 ["order:write"] [⟨some "widget", some 2⟩]
      [⟨"widget", 2⟩] bkCreateOk (by decide) rfl (by decide) (by decide)

end McpAgent
namespace McpAgent

/-- C7: arguments failing validation are rejected before any backend call
and never retried — but, the failing input evaluated: the reported error
code is `UPSTREAM_ERROR` (pydantic `ValidationError` falls into
`structured_error`'s generic branch), not the `VALIDATION_FAILED` code the
taxonomy declares (and which no code path ever raises). -/
theorem c7_validation_rejected_before_backend :
    (tool_get_order_status ["order:read"] "abc" bkStatusOk).calls = [] ∧
    errCode (tool_get_order_status ["order:read"] "abc" bkStatusOk).result =
      some "UPSTREAM_ERROR" ∧
    errCode (tool_get_order_status ["order:read"] "abc" bkStatusOk).result ≠
      some "VALIDATION_FAILED" ∧
    (tool_create_order ["order:write"] [⟨some "widget", some 0⟩] true bkCreateOk).calls = [] ∧
    errCode (tool_create_order ["order:write"] [⟨some "widget", some 0⟩] true
      bkCreateOk).result = some "UPSTREAM_ERROR" ∧
    (tool_create_order ["order:write"] [] true bkCreateOk).calls = [] ∧
    (tool_request_order_cancellation ["order:cancel"] "ORD-12345" true
      (some "short") "generated-key-0000" [] bkCancelOk).calls = [] ∧
    errCode (tool_request_order_cancellation ["order:cancel"] "ORD-12345" true
      (some "short") "generated-key-0000" [] bkCancelOk).result =
      some "UPSTREAM_ERROR" := by
  refine ⟨rfl, rfl, ?_, rfl, rfl, rfl, rfl, rfl⟩
  decide

/-- C3: replaying `request_order_cancellation` with the same
`(order_id, idempotency_key)` after a successful confirmed run returns the
identical result (hence the same terminal status) from the idempotency
cache and performs no further backend call, whatever the backend would do
on the second run. -/
theorem c3_idempotent_replay (scopes : List String) (oid k gk1 gk2 : String)
    (cache : List (String × Value)) (bk bk2 : String → String → Except PyExc Value)
    (r : Value)
    (hs : "order:cancel" ∈ scopes) (hoid : validOrderId oid = true)
    (hk : validIdemKey (some k) = true)
    (hmiss : cache.find? (fun kv => kv.1 = "cancel:" ++ oid ++ ":" ++ k) = none)
    (hbk : bk oid k = .ok r) :
    (tool_request_order_cancellation scopes oid true (some k) gk1 cache bk).result =
      .obj [("ok", .bool true), ("result", r), ("idempotency_key", .str k)] ∧
    (tool_request_order_cancellation scopes oid true (some k) gk1 cache bk).calls =
      [(oid, k)] ∧
    (tool_request_order_cancellation scopes oid true (some k) gk2
        (tool_request_order_cancellation scopes oid true (some k) gk1 cache bk).cache
        bk2).result =
      (tool_request_order_cancellation scopes oid true (some k) gk1 cache bk).result ∧
    (tool_request_order_cancellation scopes oid true (some k) gk2
        (tool_request_order_cancellation scopes oid true (some k) gk1 cache bk).cache
        bk2).calls = [] := by
  have h1 : tool_request_order_cancellation scopes oid true (some k) gk1 cache bk =
      ⟨.obj [("ok", .bool true), ("result", r), ("idempotency_key", .str k)],
       ("cancel:" ++ oid ++ ":" ++ k, r) :: cache, [(oid, k)]⟩ := by
    unfold tool_request_order_cancellation
    simp [require_scope, hs, hoid, hk, hmiss, hbk]
  have h2 : tool_request_order_cancellation scopes oid true (some k) gk2
      (("cancel:" ++ oid ++ ":" ++ k, r) :: cache) bk2 =
      ⟨.obj [("ok", .bool true), ("result", r), ("idempotency_key", .str k)],
       ("cancel:" ++ oid ++ ":" ++ k, r) :: cache, []⟩ := by
    unfold tool_request_order_cancellation
    simp [require_scope, hs, hoid, hk, List.find?]
  rw [h1]
  exact ⟨rfl, rfl, by rw [h2], by rw [h2]⟩

/-- C3 witness: concrete replay of a cancellation of `ORD-12345` under the
key `key-0000-0000`. -/
theorem c3_idempotent_replay_witness :
    (tool_request_order_cancellation ["order:cancel"] "ORD-12345" true
      (some "key-0000-0000") "g1" [] bkCancelOk).result =
      .obj [("ok", .bool true),
            ("result", .obj [("orderId", .str "ORD-12345"), ("status", .str "CANCELLED")]),
            ("idempotency_key", .str "key-0000-0000")] ∧
    (tool_request_order_cancellation ["order:cancel"] "ORD-12345" true
      (some "key-0000-0000") "g2"
      (tool_request_order_cancellation ["order:cancel"] "ORD-12345" true
        (some "key-0000-0000") "g1" [] bkCancelOk).cache
      bkCancelTimeout).calls = [] := by
  have h := c3_idempotent_replay ["order:cancel"] "ORD-12345" "key-0000-0000"
    "g1" "g2" [] bkCancelOk bkCancelTimeout
    (.obj [("orderId", .str "ORD-12345"), ("status", .str "CANCELLED")])
    (by decide) (by decide) (by decide) rfl rfl
  exact ⟨h.1, h.2.2.2⟩

/-- C9: when the backend call inside a confirmed cancellation raises, the
idempotency cache is left unchanged and the error is surfaced, so an
immediate retry with the same `(order_id, idempotency_key)` performs the
backend mutation attempt again rather than replaying a cached error. -/
theorem c9_cache_error_atomicity (scopes : List String) (oid k gk1 gk2 : String)
    (cache : List (String × Value)) (bk bk2 : String → String → Except PyExc Value)
    (e : PyExc)
    (hs : "order:cancel" ∈ scopes) (hoid : validOrderId oid = true)
    (hk : validIdemKey (some k) = true)
    (hmiss : cache.find? (fun kv => kv.1 = "cancel:" ++ oid ++ ":" ++ k) = none)
    (hbk : bk oid k = .error e) :
    (tool_request_order_cancellation scopes oid true (some k) gk1 cache bk).cache =
      cache ∧
    (tool_request_order_cancellation scopes oid true (some k) gk1 cache bk).result =
      structured_error e ∧
    (tool_request_order_cancellation scopes oid true (some k) gk2
        (tool_request_order_cancellation scopes oid true (some k) gk1 cache bk).cache
        bk2).calls = [(oid, k)] := by
  have h1 : tool_request_order_cancellation scopes oid true (some k) gk1 cache bk =
      ⟨structured_error e, cache, [(oid, k)]⟩ := by
    unfold tool_request_order_cancellation
    simp [require_scope, hs, hoid, hk, hmiss, hbk]
  rw [h1]
  refine ⟨rfl, rfl, ?_⟩
  unfold tool_request_order_cancellation
  simp only [require_scope, if_pos hs]
  rw [if_pos (by simp [hoid, hk])]
  simp only [if_neg (by simp : ¬(true = false)), Option.getD_some]
  rw [hmiss]
  cases hbk2 : bk2 oid k <;> simp

/-- C9 witness: a timing-out backend leaves the cache empty and the
follow-up retry calls the backend again. -/
theorem c9_cache_error_atomicity_witness :
    (tool_request_order_cancellation ["order:cancel"] "ORD-12345" true
      (some "key-0000-0000") "g1" [] bkCancelTimeout).cache = [] ∧
    (tool_request_order_cancellation ["order:cancel"] "ORD-12345" true
      (some "key-0000-0000") "g2"
      (tool_request_order_cancellation ["order:cancel"] "ORD-12345" true
        (some "key-0000-0000") "g1" [] bkCancelTimeout).cache
      bkCancelOk).calls = [("ORD-12345", "key-0000-0000")] := by
  have h := c9_cache_error_atomicity ["order:cancel"] "ORD-12345" "key-0000-0000"
    "g1" "g2" [] bkCancelTimeout bkCancelOk
    (.toolError "UPSTREAM_TIMEOUT" "Backend timeout" (.obj []))
    (by decide) (by decide) (by decide) rfl rfl
  exact ⟨h.1, h.2.2⟩

end McpAgent
namespace McpAgent

/-- An attempt stream that times out once, then would succeed. -/
def timeoutThenOk : Nat → AttemptOutcome :=
  fun n => if n = 0 then .timeout
           else .response 200 "" (.obj [("orderId", .str "ORD-12345")])

/-- C5 counterexample: a transport timeout on the first attempt is NOT
retried — the inner `except httpx.TimeoutException` converts it to
`ToolError("UPSTREAM_TIMEOUT")` before tenacity can match
`httpx.TimeoutException`, so one attempt is made and the error surfaces
even though the second attempt would have succeeded. -/
theorem c5_timeout_not_retried :
    client_get_latest_order timeoutThenOk =
      (.error (.toolErr "UPSTREAM_TIMEOUT" "Backend timeout" (.obj [])), 1) ∧
    (client_get_latest_order timeoutThenOk).2 ≠ 2 := by
  refine ⟨rfl, ?_⟩
  decide

/-- C5 (amended): every backend operation makes at most 2 attempts; a
first-attempt non-timeout transport failure is retried exactly once; a
first-attempt timeout is mapped to `UPSTREAM_TIMEOUT` on that first
attempt and not retried; 4xx/5xx application statuses are raised as their
mapped `ToolError`s on the first attempt and never retried. -/
theorem c5_retry_policy :
    (∀ outs, client_get_latest_order outs = withRetry outs ∧
             client_get_order_status outs = withRetry outs ∧
             client_request_cancellation outs = withRetry outs ∧
             client_create_order outs = withRetry outs) ∧
    (∀ outs, (withRetry outs).2 ≤ 2) ∧
    (∀ outs t, outs 0 = .transportError t →
      withRetry outs = (attemptOnce (outs 1), 2)) ∧
    (∀ outs, outs 0 = .timeout →
      withRetry outs =
        (.error (.toolErr "UPSTREAM_TIMEOUT" "Backend timeout" (.obj [])), 1)) ∧
    (∀ outs s b j, outs 0 = .response s b j → 400 ≤ s → s ≤ 599 →
      ∃ c m d, withRetry outs = (.error (.toolErr c m d), 1) ∧
        c ≠ "UPSTREAM_TIMEOUT") ∧
    (∀ outs b j, outs 0 = .response 401 b j →
      withRetry outs = (.error (.toolErr "UNAUTHORIZED" "Unauthorized" (.obj [])), 1)) ∧
    (∀ outs b j, outs 0 = .response 403 b j →
      withRetry outs = (.error (.toolErr "FORBIDDEN" "Forbidden" (.obj [])), 1)) ∧
    (∀ outs b j, outs 0 = .response 404 b j →
      withRetry outs = (.error (.toolErr "NOT_FOUND" "Not found" (.obj [])), 1)) := by
  refine ⟨fun outs => ⟨rfl, rfl, rfl, rfl⟩, ?_, ?_, ?_, ?_, ?_, ?_, ?_⟩
  · intro outs
    unfold withRetry
    split <;> simp
  · intro outs t h
    unfold withRetry
    rw [h]
    rfl
  · intro outs h
    unfold withRetry
    rw [h]
    rfl
  · intro outs s b j h h4 h5
    have ha : ∃ c m d, attemptOnce (outs 0) = .error (.toolErr c m d) ∧
        c ≠ "UPSTREAM_TIMEOUT" := by
      rw [h]
      simp only [attemptOnce, raise_for_status]
      split_ifs with h401 h403 h404 hrange
      · exact ⟨_, _, _, rfl, by decide⟩
      · exact ⟨_, _, _, rfl, by decide⟩
      · exact ⟨_, _, _, rfl, by decide⟩
      · exact ⟨_, _, _, rfl, by decide⟩
      · exact absurd ⟨h4, h5⟩ hrange
    obtain ⟨c, m, d, hc, hcn⟩ := ha
    refine ⟨c, m, d, ?_, hcn⟩
    unfold withRetry
    rw [hc]
  · intro outs b j h
    unfold withRetry
    rw [show attemptOnce (outs 0) =
      .error (.toolErr "UNAUTHORIZED" "Unauthorized" (.obj [])) by rw [h]; rfl]
  · intro outs b j h
    unfold withRetry
    rw [show attemptOnce (outs 0) =
      .error (.toolErr "FORBIDDEN" "Forbidden" (.obj [])) by rw [h]; rfl]
  · intro outs b j h
    unfold withRetry
    rw [show attemptOnce (outs 0) =
      .error (.toolErr "NOT_FOUND" "Not found" (.obj [])) by rw [h]; rfl]

/-- C5 witness: the amended retry policy evaluated on concrete attempt
streams. -/
theorem c5_retry_policy_witness :
    withRetry (fun _ => .transportError "connect error") =
      (attemptOnce (.transportError "connect error"), 2) ∧
    withRetry (fun _ => .timeout) =
      (.error (.toolErr "UPSTREAM_TIMEOUT" "Backend timeout" (.obj [])), 1) ∧
    withRetry (fun _ => .response 404 "" .null) =
      (.error (.toolErr "NOT_FOUND" "Not found" (.obj [])), 1) ∧
    (withRetry (fun _ => .response 503 "oops" .null)).2 ≤ 2 := by
  refine ⟨?_, ?_, ?_, ?_⟩
  · exact c5_retry_policy.2.2.1 (fun _ => .transportError "connect error")
      "connect error" rfl
  · exact c5_retry_policy.2.2.2.1 (fun _ => .timeout) rfl
  · exact c5_retry_policy.2.2.2.2.2.2.2 (fun _ => .response 404 "" .null) "" .null rfl
  · exact c5_retry_policy.2.1 (fun _ => .response 503 "oops" .null)

/-- C6 counterexample: a first content block whose text fails JSON
decoding is returned as `{ok: true, raw: text}` — an `ok:true` mapping
with no `error` key — not normalized to the `{ok:false, error}` shape the
claim requires of every decode failure; and a transport-level exception
from the underlying session is propagated, not caught. -/
theorem c6_decode_failure_not_normalized :
    call_tool (.ok [.textBlock "not json" none]) =
      .ok (.obj [("ok", .bool true), ("raw", .str "not json")]) ∧
    tget (.obj [("ok", .bool true), ("raw", .str "not json")]) "ok" = true ∧
    hasKey (.obj [("ok", .bool true), ("raw", .str "not json")]) "error" = false ∧
    call_tool (.error "transport failure") = .error "transport failure" := by
  exact ⟨rfl, rfl, rfl, rfl⟩

/-- C6 (amended): given any received response `call_tool` returns without
raising; a parseable first text block is returned as decoded (tool-reported
`{ok:false, error}` payloads thus pass through unchanged); a decode
failure degrades to `{ok:true, raw: text}`; missing, empty or text-less
content degrades to `{ok:true, result:"completed"}`; only transport-level
exceptions from the session propagate. -/
theorem c6_bridge_normalization :
    (∀ blocks, call_tool (.ok blocks) = .ok (processContent blocks)) ∧
    (∀ text v rest, text ≠ "" →
      processContent (.textBlock text (some v) :: rest) = v) ∧
    (∀ text rest, text ≠ "" →
      processContent (.textBlock text none :: rest) =
        .obj [("ok", .bool true), ("raw", .str text)]) ∧
    (processContent [] = .obj [("ok", .bool true), ("result", .str "completed")]) ∧
    (∀ parsed rest, processContent (.textBlock "" parsed :: rest) =
      .obj [("ok", .bool true), ("result", .str "completed")]) ∧
    (∀ rest, processContent (.noText :: rest) =
      .obj [("ok", .bool true), ("result", .str "completed")]) ∧
    (∀ e, call_tool (.error e) = .error e) := by
  refine ⟨fun _ => rfl, ?_, ?_, rfl, ?_, fun _ => rfl, fun _ => rfl⟩
  · intro text v rest h
    simp only [processContent]
    rw [if_pos h]
  · intro text rest h
    simp only [processContent]
    rw [if_pos h]
  · intro parsed rest
    simp only [processContent]
    rw [if_neg (by simp)]

/-- C6 witness: the amended bridge contract evaluated on concrete
responses. -/
theorem c6_bridge_normalization_witness :
    processContent [.textBlock "x" (some (.obj [("ok", .bool false)]))] =
      .obj [("ok", .bool false)] ∧
    processContent [.textBlock "bad" none] =
      .obj [("ok", .bool true), ("raw", .str "bad")] ∧
    processContent [.textBlock "" none] =
      .obj [("ok", .bool true), ("result", .str "completed")] := by
  exact ⟨c6_bridge_normalization.2.1 "x" (.obj [("ok", .bool false)]) [] (by decide),
         c6_bridge_normalization.2.2.1 "bad" [] (by decide),
         c6_bridge_normalization.2.2.2.2.1 none []⟩

/-- C8: `RuleBasedPlanner.next_action` is a pure function of
`(currentText, history)` — it reads no other state and uses no
randomness — so two calls on identical inputs return identical Actions. -/
theorem c8_planner_deterministic (t1 t2 : String) (h1 h2 : List Value)
    (ht : t1 = t2) (hh : h1 = h2) :
    next_action t1 h1 = next_action t2 h2 := by
  subst ht
  subst hh
  rfl

/-- C8 witness: determinism applied at a concrete input. -/
theorem c8_planner_deterministic_witness :
    next_action "hello" [] = next_action "hello" [] :=
  c8_planner_deterministic "hello" "hello" [] [] rfl rfl

end McpAgent
namespace McpAgent

/-- C10: item extraction emits at most one entry per product, in fixed
catalog order regardless of mention order (the extracted name sequence is
a sublist of the catalog); every quantity is clamped above at 100; a
product with no adjacent number defaults to quantity 1; and a written
quantity of 0 is passed through unclamped. -/
theorem c10_extract_order_items_spec (text : String) :
    ((extract_order_items text).map Prod.fst).Sublist AVAILABLE_PRODUCTS ∧
    (∀ it ∈ extract_order_items text, it.2 ≤ 100) ∧
    (∀ p ∈ AVAILABLE_PRODUCTS, inL p (low text) = true →
      searchNumThenProduct p.toList (low text) = none →
      searchProductThenNum p.toList (low text) = none →
      (p, (1 : Int)) ∈ extract_order_items text) ∧
    extract_order_items "0 widgets" = [("widget", 0)] ∧
    extract_order_items "200 widgets" = [("widget", 100)] := by
  refine ⟨?_, ?_, ?_, rfl, rfl⟩
  · unfold extract_order_items
    rw [List.map_map]
    have : (Prod.fst ∘ fun p => (p, Int.ofNat (min (qtyFor (low text) p) 100))) =
        fun p => p := rfl
    rw [this, List.map_id']
    exact List.filter_sublist _
  · intro it hit
    unfold extract_order_items at hit
    rw [List.mem_map] at hit
    obtain ⟨p, _, rfl⟩ := hit
    show Int.ofNat (qtyFor (low text) p ⊓ 100) ≤ 100
    exact Int.ofNat_le.mpr (min_le_right (qtyFor (low text) p) 100)
  · intro p hp hin hs1 hs2
    unfold extract_order_items
    rw [List.mem_map]
    refine ⟨p, ?_, ?_⟩
    · rw [List.mem_filter]
      exact ⟨hp, hin⟩
    · unfold qtyFor
      rw [hs1, hs2]
      rfl

/-- C10 witness: the extraction spec applied at the utterance `widget`,
where neither quantity pattern matches, so quantity defaults to 1. -/
theorem c10_extract_order_items_witness :
    ("widget", (1 : Int)) ∈ extract_order_items "widget" :=
  (c10_extract_order_items_spec "widget").2.2.1 "widget" (by decide) rfl rfl rfl

/-- Helper: the planner's confirmation block yields nothing when the user
is confirming over a non-empty history. -/
lemma confirmBlock_confirm_nonempty (l : List Value) (h : l.isEmpty = false) :
    confirmBlock "confirm" l = none := by
  unfold confirmBlock
  rw [h]
  rfl

/-- C4: the `CONFIRMATION_REQUIRED` details produced by an unconfirmed
`create_order` embed exactly the validated items list, and on a subsequent
`confirm` intent the planner replays `create_order` with `confirmed=true`
and exactly that same items list, element for element and in order,
whatever history precedes the error. -/
theorem c4_confirmation_round_trip (scopes : List String) (items : List ItemIn)
    (vi : List ValidItem) (bk : List ValidItem → Except PyExc Value)
    (hist : List Value)
    (hs : "order:write" ∈ scopes) (hv : validateItems items = .ok vi)
    (h1 : 1 ≤ vi.length) (h10 : vi.length ≤ 10) :
    (tool_create_order scopes items false bk).result = createConfResult vi ∧
    next_action "yes" (hist ++ [(tool_create_order scopes items false bk).result]) =
      .tool "create_order"
        (.obj [("items", encodeItems vi), ("confirmed", .bool true)])
        (some "User confirmed order placement.") := by
  have hres : (tool_create_order scopes items false bk).result = createConfResult vi := by
    unfold tool_create_order
    simp [require_scope, hs, hv, h1, h10, createConfResult]
  refine ⟨hres, ?_⟩
  rw [hres]
  have hne : (hist ++ [createConfResult vi]).isEmpty = false := by
    cases hist <;> rfl
  unfold next_action
  rw [show detect_intent "yes" = "confirm" from rfl]
  rw [show successBlock "yes" "confirm"
    (lastResult (hist ++ [createConfResult vi])) = none from rfl]
  simp only [Option.orElse]
  rw [confirmBlock_confirm_nonempty _ hne]
  rw [show dispatchIntent "confirm" "yes" (hist ++ [createConfResult vi])
    (lastResult (hist ++ [createConfResult vi])) =
    some (confirmIntent (hist ++ [createConfResult vi])) from rfl]
  simp only [Option.getD]
  unfold confirmIntent
  rw [List.reverse_append]
  rfl

/-- C4 witness: the round trip evaluated for a concrete two-widget order. -/
theorem c4_confirmation_round_trip_witness :
    next_action "yes"
      [(tool_create_order ["order:write"] [⟨some "widget", some 2⟩] false bkCreateOk).result] =
    .tool "create_order"
      (.obj [("items", encodeItems [⟨"widget", 2⟩]), ("confirmed", .bool true)])
      (some "User confirmed order placement.") := by
  have h := c4_confirmation_round_trip ["order:write"] [⟨some "widget", some 2⟩]
    [⟨"widget", 2⟩] bkCreateOk [] (by decide) rfl (by decide) (by decide)
  simpa using h.2

end McpAgent
namespace McpAgent

/-- Helper: the success-summary block only ever produces `Final` actions. -/
lemma successBlock_isFinal {t i : String} {last : Value} {a : Action}
    (h : successBlock t i last = some a) : ∃ m, a = .final m := by
  unfold successBlock at h
  split_ifs at h <;>
    first
      | exact Option.noConfusion h
      | exact ⟨_, (Option.some.inj h).symm⟩

/-- Helper: the confirmation scan only ever produces `AskUser` actions. -/
lemma confirmScan_isAsk : ∀ {l : List Value} {a : Action},
    confirmScan l = some a → ∃ q, a = .askUser q := by
  intro l
  induction l with
  | nil => intro a h; exact Option.noConfusion h
  | cons r rest ih =>
    intro a h
    simp only [confirmScan] at h
    split_ifs at h <;>
      first
        | exact ⟨_, (Option.some.inj h).symm⟩
        | exact ih h

/-- Helper: the confirmation block only ever produces `AskUser` actions. -/
lemma confirmBlock_isAsk {i : String} {l : List Value} {a : Action}
    (h : confirmBlock i l = some a) : ∃ q, a = .askUser q := by
  unfold confirmBlock at h
  split_ifs at h
  all_goals
    first
      | exact Option.noConfusion h
      | exact confirmScan_isAsk h

/-- Helper: every `Tool` action the tail block can produce names one of the
two read tools. -/
lemma tailBlock_readTool {res : List Value} {last : Value} {name : String}
    {args : Value} {why : Option String}
    (h : tailBlock res last = some (.tool name args why)) :
    name = "get_latest_order" ∨ name = "get_order_status" := by
  unfold tailBlock at h
  split_ifs at h <;> simp_all

/-- Helper: no branch of the intent dispatch fires on the `unknown`
intent. -/
lemma dispatchIntent_unknown (t : String) (res : List Value) (last : Value) :
    dispatchIntent "unknown" t res last = none := rfl

/-- Helper: on the empty `currentText` of every non-initial step, the
planner only ever requests the two read tools. -/
lemma next_action_empty_tool {h : List Value} {name : String} {args : Value}
    {why : Option String} (he : next_action "" h = .tool name args why) :
    name = "get_latest_order" ∨ name = "get_order_status" := by
  unfold next_action at he
  rw [show detect_intent "" = "unknown" from rfl] at he
  rcases hs : successBlock "" "unknown" (lastResult h) with _ | a
  · rw [hs] at he
    simp only [Option.orElse] at he
    rcases hc : confirmBlock "unknown" h with _ | b
    · rw [hc] at he
      simp only [Option.orElse] at he
      rw [dispatchIntent_unknown] at he
      simp only [Option.orElse] at he
      rcases ht : tailBlock h (lastResult h) with _ | c
      · rw [ht] at he
        simp only [Option.getD] at he
        exact Action.noConfusion he
      · rw [ht] at he
        simp only [Option.getD] at he
        rw [he] at ht
        exact tailBlock_readTool ht
    · rw [hc] at he
      simp only [Option.orElse, Option.getD] at he
      obtain ⟨q, rfl⟩ := confirmBlock_isAsk hc
      exact Action.noConfusion he
  · rw [hs] at he
    simp only [Option.orElse, Option.getD] at he
    obtain ⟨m, rfl⟩ := successBlock_isFinal hs
    exact Action.noConfusion he

/-- The property of the tool bridge the step-budget bound rests on: the two
read tools never answer with a `CONFIRMATION_REQUIRED` error (in the
composed system only the two mutating tools, under `confirmed=false`, ever
produce that code). -/
def ReadSafe (oracle : List Value → String → Value → Value) : Prop :=
  ∀ h args,
    errCode (oracle h "get_latest_order" args) ≠ some "CONFIRMATION_REQUIRED" ∧
    errCode (oracle h "get_order_status" args) ≠ some "CONFIRMATION_REQUIRED"

/-- Helper: with empty text every remaining step invokes the planner at
most once per unit of budget. -/
lemma runLoop_empty_calls (oracle : List Value → String → Value → Value)
    (ho : ReadSafe oracle) :
    ∀ n results, (runLoop oracle n "" results).plannerCalls ≤ n := by
  intro n
  induction n with
  | zero => intro results; exact Nat.le_refl 0
  | succ n ih =>
    intro results
    cases hna : next_action "" results with
    | final m =>
      simp only [runLoop, hna]
      exact Nat.succ_le_succ (Nat.zero_le n)
    | askUser q =>
      simp only [runLoop, hna]
      exact Nat.succ_le_succ (Nat.zero_le n)
    | tool name args why =>
      have hcc : errCode (oracle results name args) ≠ some "CONFIRMATION_REQUIRED" := by
        rcases next_action_empty_tool hna with h1 | h1
        · rw [h1]; exact (ho results args).1
        · rw [h1]; exact (ho results args).2
      simp only [runLoop, hna, if_neg hcc]
      exact Nat.succ_le_succ (ih _)

/-- Helper: an exhausted run reports the fixed step-limit message. -/
lemma runLoop_exhausted_message (oracle : List Value → String → Value → Value) :
    ∀ n text results, (runLoop oracle n text results).exhausted = true →
      (runLoop oracle n text results).message = stepLimitMsg := by
  intro n
  induction n with
  | zero => intro text results _; rfl
  | succ n ih =>
    intro text results hex
    cases hna : next_action text results with
    | final m =>
      simp only [runLoop, hna] at hex
      exact absurd hex (by simp)
    | askUser q =>
      simp only [runLoop, hna] at hex
      exact absurd hex (by simp)
    | tool name args why =>
      by_cases hc : errCode (oracle results name args) = some "CONFIRMATION_REQUIRED"
      · simp only [runLoop, hna, if_pos hc] at hex
        cases hna2 : next_action ""
            (results ++ [normalizeResult (oracle results name args)]) <;>
          simp only [hna2] at hex <;> exact absurd hex (by simp)
      · simp only [runLoop, hna, if_neg hc] at hex ⊢
        exact ih _ _ hex

/-- Helper: one initial step (whose text may carry a fresh intent) followed
by empty-text steps performs at most `max (n + 1) 2` planner invocations —
the `2` accounts for the confirmation-handling extra invocation, which can
only fire on the initial step. -/
lemma runLoop_succ_calls (oracle : List Value → String → Value → Value)
    (ho : ReadSafe oracle) (n : Nat) (text : String) (results : List Value) :
    (runLoop oracle (n + 1) text results).plannerCalls ≤ max (n + 1) 2 := by
  cases hna : next_action text results with
  | final m =>
    simp only [runLoop, hna]
    exact le_trans (by omega : 1 ≤ n + 1) (le_max_left _ _)
  | askUser q =>
    simp only [runLoop, hna]
    exact le_trans (by omega : 1 ≤ n + 1) (le_max_left _ _)
  | tool name args why =>
    by_cases hc : errCode (oracle results name args) = some "CONFIRMATION_REQUIRED"
    · simp only [runLoop, hna, if_pos hc]
      cases next_action "" (results ++ [normalizeResult (oracle results name args)]) <;>
        exact le_max_right _ _
    · simp only [runLoop, hna, if_neg hc]
      have hb := runLoop_empty_calls oracle ho n
        (results ++ [normalizeResult (oracle results name args)])
      exact le_trans (by omega) (le_max_left (n + 1) 2)

/-- C2: under the bridge property that read tools never demand
confirmation, every turn invokes the planner at most 6 times; and whenever
the step budget is exhausted without a terminal action, the loop returns
the fixed fallback message together with the accumulated history. -/
theorem c2_step_budget :
    (∀ oracle, ReadSafe oracle → ∀ text results,
      (run_agent text results oracle).plannerCalls ≤ 6) ∧
    (∀ oracle text results, (run_agent text results oracle).exhausted = true →
      (run_agent text results oracle).message = stepLimitMsg) := by
  constructor
  · intro oracle ho text results
    have h := runLoop_succ_calls oracle ho 5 text results
    simpa using h
  · intro oracle text results hex
    exact runLoop_exhausted_message oracle MAX_STEPS text results hex

end McpAgent
namespace McpAgent

/-- A bridge whose every call answers with the same shipped order, driving
the planner into its order-then-status chain until the budget runs out. -/
def loopingOracle : List Value → String → Value → Value :=
  fun _ _ _ => .obj [("ok", .bool true),
    ("order", .obj [("orderId", .str "ORD-12345"), ("status", .str "SHIPPED")])]

/-- C2 witness: the step-budget theorem applied to a concrete
budget-exhausting turn, which performs exactly the 6 allowed planner
invocations and returns the fixed fallback message. -/
theorem c2_step_budget_witness :
    ReadSafe loopingOracle ∧
    (run_agent "status" [] loopingOracle).plannerCalls ≤ 6 ∧
    (run_agent "status" [] loopingOracle).plannerCalls = 6 ∧
    (run_agent "status" [] loopingOracle).exhausted = true ∧
    (run_agent "status" [] loopingOracle).message = stepLimitMsg := by
  have hbase : errCode (.obj [("ok", .bool true),
      ("order", .obj [("orderId", .str "ORD-12345"), ("status", .str "SHIPPED")])]) ≠
      some "CONFIRMATION_REQUIRED" := by decide
  have hrs : ReadSafe loopingOracle := fun _ _ => ⟨hbase, hbase⟩
  have hex : (run_agent "status" [] loopingOracle).exhausted = true := rfl
  exact ⟨hrs, c2_step_budget.1 loopingOracle hrs "status" [], rfl, hex,
         c2_step_budget.2 loopingOracle "status" [] hex⟩

end McpAgent
